import Mathlib

/-!
Verification of `pulumi-go-helmbase` (src/base.go), a helper layer that
merges a strongly typed Helm release configuration with chart defaults
(`InitDefaults`), converts it to the weakly typed argument shape of the
underlying Helm release resource (`To`), and orchestrates component
construction (`Construct`).

The Go code is shallowly embedded: pointers to scalars (`*bool`, `*int`,
`*string`) become `Option`s, Go maps become association lists over an
untyped `Value`, and the mapstructure decoding of the values payload is
represented by the list of (pulumi-tag, value) pairs it produces.
-/

namespace Helmbase

/-- Untyped value carried in a Go `map[string]interface{}`.  Only the
identity of values matters for the properties verified here, so a small
closed universe of scalars suffices. -/
inductive Value where
  | str (s : String)
  | num (n : Int)
  | boolean (b : Bool)
  deriving Repr, DecidableEq

/-- A Go `map[string]interface{}`, embedded as an association list keyed
by strings.  Go map iteration order is unspecified, and only lookup
semantics are used by the source, so the list order carries no meaning. -/
abbrev ValuesMap := List (String × Value)

/-- Lookup of a key in a values map (Go `m[k]`, comma-ok form). -/
def lookupKV : ValuesMap → String → Option Value
  | [], _ => none
  | p :: t, k => if p.1 = k then some p.2 else lookupKV t k

/-- Removal of a key from a values map (Go `delete(m, k)`). -/
def eraseKey : ValuesMap → String → ValuesMap
  | [], _ => []
  | p :: t, k => if p.1 = k then eraseKey t k else p :: eraseKey t k

/-- Setting a key in a values map (Go `m[k] = v`): the new binding
replaces any previous binding of the same key. -/
def setKey (m : ValuesMap) (k : String) (v : Value) : ValuesMap :=
  (k, v) :: eraseKey m k

/-- `mapstructure` decoding with `Result` pointing at an existing map
merges the decoded key/value pairs into that map, each decoded key
overwriting any previous binding.  The decoded pairs are the parameter. -/
def mergeDecoded (m : ValuesMap) (decoded : List (String × Value)) : ValuesMap :=
  decoded.foldl (fun acc p => setKey acc p.1 p.2) m

@[simp] theorem lookupKV_nil (k : String) : lookupKV [] k = none := rfl

@[simp] theorem lookupKV_cons (p : String × Value) (t : ValuesMap) (k : String) :
    lookupKV (p :: t) k = if p.1 = k then some p.2 else lookupKV t k := rfl

theorem lookupKV_eraseKey_self (m : ValuesMap) (k : String) :
    lookupKV (eraseKey m k) k = none := by
  induction m with
  | nil => rfl
  | cons p t ih =>
    by_cases h : p.1 = k <;> simp [eraseKey, h, ih]

theorem mergeDecoded_nil (m : ValuesMap) : mergeDecoded m [] = m := rfl

theorem mergeDecoded_cons (m : ValuesMap) (p : String × Value)
    (t : List (String × Value)) :
    mergeDecoded m (p :: t) = mergeDecoded (setKey m p.1 p.2) t := rfl

theorem lookupKV_eraseKey_ne (m : ValuesMap) (k k' : String) (h : k' ≠ k) :
    lookupKV (eraseKey m k) k' = lookupKV m k' := by
  induction m with
  | nil => rfl
  | cons p t ih =>
    simp only [eraseKey]
    by_cases hp : p.1 = k
    · rw [if_pos hp, ih, lookupKV_cons, if_neg]
      intro hc
      exact h (hp.symm.trans hc).symm
    · rw [if_neg hp]
      simp only [lookupKV_cons, ih]

theorem lookupKV_setKey_self (m : ValuesMap) (k : String) (v : Value) :
    lookupKV (setKey m k v) k = some v := by
  simp [setKey]

theorem lookupKV_setKey_ne (m : ValuesMap) (k k' : String) (v : Value) (h : k' ≠ k) :
    lookupKV (setKey m k v) k' = lookupKV m k' := by
  rw [setKey, lookupKV_cons, if_neg (fun hc => h hc.symm),
    lookupKV_eraseKey_ne m k k' h]

theorem lookupKV_mergeDecoded_not_mem (m : ValuesMap)
    (d : List (String × Value)) (k : String) (h : k ∉ d.map Prod.fst) :
    lookupKV (mergeDecoded m d) k = lookupKV m k := by
  induction d generalizing m with
  | nil => rfl
  | cons p t ih =>
    simp only [List.map_cons, List.mem_cons] at h
    push_neg at h
    rw [mergeDecoded_cons, ih (setKey m p.1 p.2) h.2,
      lookupKV_setKey_ne m p.1 k p.2 h.1]

theorem lookupKV_mergeDecoded_mem (m : ValuesMap)
    (d : List (String × Value)) (k : String) (v : Value)
    (hnd : (d.map Prod.fst).Nodup) (h : lookupKV d k = some v) :
    lookupKV (mergeDecoded m d) k = some v := by
  induction d generalizing m with
  | nil => simp at h
  | cons p t ih =>
    simp only [List.map_cons, List.nodup_cons] at hnd
    rw [mergeDecoded_cons]
    by_cases hp : p.1 = k
    · rw [lookupKV_cons, if_pos hp] at h
      obtain rfl : p.2 = v := by injection h
      rw [lookupKV_mergeDecoded_not_mem (setKey m p.1 p.2) t k (hp ▸ hnd.1), hp,
        lookupKV_setKey_self]
    · rw [lookupKV_cons, if_neg hp] at h
      exact ih (setKey m p.1 p.2) hnd.2 h

/-- Reserved output key (src/base.go line 26): `FieldHelmStatusOutput = "status"`. -/
def FieldHelmStatusOutput : String := "status"

/-- Reserved chart-options input key (src/base.go line 27):
`FieldHelmOptionsInput = "helmOptions"`. -/
def FieldHelmOptionsInput : String := "helmOptions"

/-- Stand-in for the external opaque type `pulumi.AssetOrArchive`; its
contents never matter to this layer. -/
structure AssetOrArchive where
  id : String := ""
  deriving Repr, DecidableEq

/-- Stand-in for the external opaque type `helmv3.ReleaseStatus`; this
layer only passes it through. -/
structure ReleaseStatus where
  raw : String := ""
  deriving Repr, DecidableEq

/-- External type `helmv3.RepositoryOpts` as used by src/base.go: six
optional string fields (`*string` in Go, hence `Option String`). -/
structure RepositoryOpts where
  CaFile : Option String := none
  CertFile : Option String := none
  KeyFile : Option String := none
  Password : Option String := none
  Repo : Option String := none
  Username : Option String := none
  deriving Repr, DecidableEq

/-- `ReleaseType` (src/base.go lines 47-116).  Go pointer fields become
`Option`s; `Chart` is a plain Go `string` whose unset state is `""`; the
Go maps `Manifest`, `ResourceNames` and `Values` may be nil, hence
`Option` (the nil-ness of `Values` is branched on in `InitDefaults`). -/
structure ReleaseType where
  Atomic : Option Bool := none
  Chart : String := ""
  CleanupOnFail : Option Bool := none
  CreateNamespace : Option Bool := none
  DependencyUpdate : Option Bool := none
  Description : Option String := none
  Devel : Option Bool := none
  DisableCRDHooks : Option Bool := none
  DisableOpenapiValidation : Option Bool := none
  DisableWebhooks : Option Bool := none
  ForceUpdate : Option Bool := none
  Keyring : Option String := none
  Lint : Option Bool := none
  Manifest : Option ValuesMap := none
  MaxHistory : Option Int := none
  Name : Option String := none
  Namespace : Option String := none
  Postrender : Option String := none
  RecreatePods : Option Bool := none
  RenderSubchartNotes : Option Bool := none
  Replace : Option Bool := none
  RepositoryOpts : RepositoryOpts := {}
  ResetValues : Option Bool := none
  ResourceNames : Option (List (String × List String)) := none
  ReuseValues : Option Bool := none
  SkipAwait : Option Bool := none
  SkipCrds : Option Bool := none
  Status : ReleaseStatus := {}
  Timeout : Option Int := none
  ValueYamlFiles : List AssetOrArchive := []
  Values : Option ValuesMap := none
  Verify : Option Bool := none
  Version : Option String := none
  WaitForJobs : Option Bool := none
  deriving Repr, DecidableEq

/-- First block of `InitDefaults` (src/base.go lines 175-177): if the
chart field is the empty string, set it to the default chart name. -/
def applyChartDefault (args : ReleaseType) (chart : String) : ReleaseType :=
  if args.Chart = "" then { args with Chart := chart } else args

/-- Second block of `InitDefaults` (src/base.go lines 178-180): if the
repository URL pointer is nil, point it at the default repo URL. -/
def applyRepoDefault (args : ReleaseType) (repo : String) : ReleaseType :=
  if args.RepositoryOpts.Repo = none then
    { args with RepositoryOpts := { args.RepositoryOpts with Repo := some repo } }
  else args

/-- Third block of `InitDefaults` (src/base.go lines 185-204): allocate
the values map if nil, merge the mapstructure-decoded payload into it
(decoded keys overwrite), then delete the reserved `helmOptions` key. -/
def applyValues (args : ReleaseType) (decoded : List (String × Value)) : ReleaseType :=
  { args with
      Values := some (eraseKey (mergeDecoded (args.Values.getD []) decoded)
        FieldHelmOptionsInput) }

/-- `InitDefaults` (src/base.go lines 171-205).  The arbitrary Go
`values interface{}` payload is represented by the (pulumi-tag, value)
pairs its mapstructure decoding produces; the happy path (decoding
succeeds) is modelled here, the panic path in `InitDefaultsRun`. -/
def InitDefaults (args : ReleaseType) (chart repo : String)
    (decoded : List (String × Value)) : ReleaseType :=
  applyValues (applyRepoDefault (applyChartDefault args chart) repo) decoded

/-- Outcome of running a Go function that returns no error: it either
completes normally or panics. -/
inductive GoOutcome (α : Type) where
  | ok (a : α)
  | panicked (msg : String)
  deriving Repr, DecidableEq

/-- `InitDefaults` including its failure behaviour (src/base.go lines
192-201): the result of mapstructure decoding of the payload is passed
in as an `Except`; a decoding error is turned into a panic, never into a
returned error (the Go function has no error result at all, which is
what `GoOutcome` records). -/
def InitDefaultsRun (args : ReleaseType) (chart repo : String)
    (decodeResult : Except String (List (String × Value))) : GoOutcome ReleaseType :=
  match decodeResult with
  | Except.error e => GoOutcome.panicked e
  | Except.ok d => GoOutcome.ok (InitDefaults args chart repo d)

/-- The external `pulumi.BoolPtrInput` interface value: nil, or a
wrapped boolean (`pulumi.BoolPtr(b)`). -/
inductive BoolPtrInput where
  | null
  | boolPtr (b : Bool)
  deriving Repr, DecidableEq

/-- The external `pulumi.IntPtrInput` interface value: nil, or a wrapped
integer (`pulumi.IntPtr(n)`). -/
inductive IntPtrInput where
  | null
  | intPtr (n : Int)
  deriving Repr, DecidableEq

/-- The external `pulumi.StringPtrInput` interface value: nil, or a
wrapped string (`pulumi.StringPtr(s)`). -/
inductive StringPtrInput where
  | null
  | stringPtr (s : String)
  deriving Repr, DecidableEq

/-- `toBoolPtr` (src/base.go lines 207-212). -/
def toBoolPtr (p : Option Bool) : BoolPtrInput :=
  match p with
  | none => BoolPtrInput.null
  | some b => BoolPtrInput.boolPtr b

/-- `toIntPtr` (src/base.go lines 214-219). -/
def toIntPtr (p : Option Int) : IntPtrInput :=
  match p with
  | none => IntPtrInput.null
  | some n => IntPtrInput.intPtr n

/-- `toStringPtr` (src/base.go lines 221-226). -/
def toStringPtr (p : Option String) : StringPtrInput :=
  match p with
  | none => StringPtrInput.null
  | some s => StringPtrInput.stringPtr s

/-- `toAssetOrArchiveArray` (src/base.go lines 228-238): the conversion
loop is commented out in the source (a type-compatibility gap), so the
function returns the empty (nil) array whatever its argument is. -/
def toAssetOrArchiveArray (a : List AssetOrArchive) : List AssetOrArchive :=
  []

/-- `pulumi.ToMap` applied to a possibly-nil Go map: iterating a nil map
yields the empty map. -/
def pulumiToMap (m : Option ValuesMap) : ValuesMap :=
  m.getD []

/-- `pulumi.ToStringArrayMap` applied to a possibly-nil Go map. -/
def pulumiToStringArrayMap (m : Option (List (String × List String))) :
    List (String × List String) :=
  m.getD []

/-- The external `helmv3.RepositoryOptsArgs` shape, as populated by `To`
(src/base.go lines 269-276). -/
structure RepositoryOptsArgs where
  CaFile : StringPtrInput
  CertFile : StringPtrInput
  KeyFile : StringPtrInput
  Password : StringPtrInput
  Repo : StringPtrInput
  Username : StringPtrInput
  deriving Repr, DecidableEq

/-- The external `helmv3.ReleaseArgs` shape, restricted to the fields
the source populates (src/base.go lines 247-288). -/
structure ReleaseArgs where
  Atomic : BoolPtrInput
  Chart : String
  CleanupOnFail : BoolPtrInput
  CreateNamespace : BoolPtrInput
  DependencyUpdate : BoolPtrInput
  Description : StringPtrInput
  Devel : BoolPtrInput
  DisableCRDHooks : BoolPtrInput
  DisableOpenapiValidation : BoolPtrInput
  DisableWebhooks : BoolPtrInput
  ForceUpdate : BoolPtrInput
  Keyring : StringPtrInput
  Lint : BoolPtrInput
  Manifest : ValuesMap
  MaxHistory : IntPtrInput
  Name : StringPtrInput
  Namespace : StringPtrInput
  Postrender : StringPtrInput
  RecreatePods : BoolPtrInput
  RenderSubchartNotes : BoolPtrInput
  Replace : BoolPtrInput
  RepositoryOpts : RepositoryOptsArgs
  ResetValues : BoolPtrInput
  ResourceNames : List (String × List String)
  ReuseValues : BoolPtrInput
  SkipAwait : BoolPtrInput
  SkipCrds : BoolPtrInput
  Timeout : IntPtrInput
  ValueYamlFiles : List AssetOrArchive
  Values : ValuesMap
  Verify : BoolPtrInput
  Version : StringPtrInput
  WaitForJobs : BoolPtrInput
  deriving Repr, DecidableEq

/-- `To` (src/base.go lines 241-288): field-by-field conversion of the
merged configuration into the Helm release argument shape. -/
def To (args : ReleaseType) : ReleaseArgs :=
  { Atomic := toBoolPtr args.Atomic
    Chart := args.Chart
    CleanupOnFail := toBoolPtr args.CleanupOnFail
    CreateNamespace := toBoolPtr args.CreateNamespace
    DependencyUpdate := toBoolPtr args.DependencyUpdate
    Description := toStringPtr args.Description
    Devel := toBoolPtr args.Devel
    DisableCRDHooks := toBoolPtr args.DisableCRDHooks
    DisableOpenapiValidation := toBoolPtr args.DisableOpenapiValidation
    DisableWebhooks := toBoolPtr args.DisableWebhooks
    ForceUpdate := toBoolPtr args.ForceUpdate
    Keyring := toStringPtr args.Keyring
    Lint := toBoolPtr args.Lint
    Manifest := pulumiToMap args.Manifest
    MaxHistory := toIntPtr args.MaxHistory
    Name := toStringPtr args.Name
    Namespace := toStringPtr args.Namespace
    Postrender := toStringPtr args.Postrender
    RecreatePods := toBoolPtr args.RecreatePods
    RenderSubchartNotes := toBoolPtr args.RenderSubchartNotes
    Replace := toBoolPtr args.Replace
    RepositoryOpts :=
      { CaFile := toStringPtr args.RepositoryOpts.CaFile
        CertFile := toStringPtr args.RepositoryOpts.CertFile
        KeyFile := toStringPtr args.RepositoryOpts.KeyFile
        Password := toStringPtr args.RepositoryOpts.Password
        Repo := toStringPtr args.RepositoryOpts.Repo
        Username := toStringPtr args.RepositoryOpts.Username }
    ResetValues := toBoolPtr args.ResetValues
    ResourceNames := pulumiToStringArrayMap args.ResourceNames
    ReuseValues := toBoolPtr args.ReuseValues
    SkipAwait := toBoolPtr args.SkipAwait
    SkipCrds := toBoolPtr args.SkipCrds
    Timeout := toIntPtr args.Timeout
    ValueYamlFiles := toAssetOrArchiveArray args.ValueYamlFiles
    Values := pulumiToMap args.Values
    Verify := toBoolPtr args.Verify
    Version := toStringPtr args.Version
    WaitForJobs := toBoolPtr args.WaitForJobs }

/-- The `Chart` capability set used by `Construct` (src/base.go lines
33-44), minus `SetOutputs`, which is an in-memory assignment on the
concrete chart and has no observable effect in this layer. -/
structure ChartImpl where
  typeToken : String
  defaultChartName : String
  defaultRepoURL : String
  deriving Repr, DecidableEq

/-- A successful resource-registration side effect against the
orchestration engine, in the order `Construct` performs them. -/
inductive RegEvent where
  | component
  | release
  | outputs
  deriving Repr, DecidableEq

/-- `Construct` (src/base.go lines 127-168).  The external collaborators
are passed in as oracle values: `copyTo` is the outcome of
`inputs.CopyTo(args)` (on success: the decoded release configuration,
nil-able as in Go, plus the mapstructure view of the argument payload);
`registerComponent`, `newRelease` and `registerOutputs` are the outcomes
of the engine calls.  The returned event list records which
registrations succeeded, in order. -/
def Construct (c : ChartImpl) (typ name : String)
    (copyTo : Except String (Option ReleaseType × List (String × Value)))
    (registerComponent : Except String Unit)
    (newRelease : ReleaseArgs → Except String ReleaseStatus)
    (registerOutputs : Except String Unit) :
    Except String ChartImpl × List RegEvent :=
  if typ ≠ c.typeToken then
    (Except.error ("unknown resource type " ++ typ ++ "; expected " ++ c.typeToken), [])
  else
    match copyTo with
    | Except.error e => (Except.error ("setting args: " ++ e), [])
    | Except.ok (relArgs0, decoded) =>
      match registerComponent with
      | Except.error e => (Except.error e, [])
      | Except.ok _ =>
        let relArgs := InitDefaults (relArgs0.getD {}) c.defaultChartName
          c.defaultRepoURL decoded
        match newRelease (To relArgs) with
        | Except.error e => (Except.error e, [RegEvent.component])
        | Except.ok _stat =>
          match registerOutputs with
          | Except.error e => (Except.error e, [RegEvent.component, RegEvent.release])
          | Except.ok _ =>
            (Except.ok c, [RegEvent.component, RegEvent.release, RegEvent.outputs])

/-- Modelled from the spec (§4.3): an optional boolean field converts
independently — unset stays unset, a set value passes through unchanged. -/
def specScalarBool (o : Option Bool) : BoolPtrInput :=
  match o with
  | none => BoolPtrInput.null
  | some b => BoolPtrInput.boolPtr b

/-- Modelled from the spec (§4.3): an optional integer field converts
independently — unset stays unset, a set value passes through unchanged. -/
def specScalarInt (o : Option Int) : IntPtrInput :=
  match o with
  | none => IntPtrInput.null
  | some n => IntPtrInput.intPtr n

/-- Modelled from the spec (§4.3): an optional string field converts
independently — unset stays unset, a set value passes through unchanged. -/
def specScalarString (o : Option String) : StringPtrInput :=
  match o with
  | none => StringPtrInput.null
  | some s => StringPtrInput.stringPtr s

theorem applyChartDefault_Chart (args : ReleaseType) (chart : String) :
    (applyChartDefault args chart).Chart = if args.Chart = "" then chart else args.Chart := by
  unfold applyChartDefault
  split <;> rfl

theorem applyChartDefault_RepositoryOpts (args : ReleaseType) (chart : String) :
    (applyChartDefault args chart).RepositoryOpts = args.RepositoryOpts := by
  unfold applyChartDefault
  split <;> rfl

theorem applyChartDefault_Values (args : ReleaseType) (chart : String) :
    (applyChartDefault args chart).Values = args.Values := by
  unfold applyChartDefault
  split <;> rfl

theorem applyRepoDefault_Chart (args : ReleaseType) (repo : String) :
    (applyRepoDefault args repo).Chart = args.Chart := by
  unfold applyRepoDefault
  split <;> rfl

theorem applyRepoDefault_Repo (args : ReleaseType) (repo : String) :
    (applyRepoDefault args repo).RepositoryOpts.Repo =
      if args.RepositoryOpts.Repo = none then some repo else args.RepositoryOpts.Repo := by
  unfold applyRepoDefault
  split <;> rfl

theorem applyRepoDefault_Values (args : ReleaseType) (repo : String) :
    (applyRepoDefault args repo).Values = args.Values := by
  unfold applyRepoDefault
  split <;> rfl

theorem applyValues_Chart (args : ReleaseType) (d : List (String × Value)) :
    (applyValues args d).Chart = args.Chart := rfl

theorem applyValues_RepositoryOpts (args : ReleaseType) (d : List (String × Value)) :
    (applyValues args d).RepositoryOpts = args.RepositoryOpts := rfl

theorem initDefaults_Chart (args : ReleaseType) (chart repo : String)
    (d : List (String × Value)) :
    (InitDefaults args chart repo d).Chart =
      if args.Chart = "" then chart else args.Chart := by
  unfold InitDefaults
  rw [applyValues_Chart, applyRepoDefault_Chart, applyChartDefault_Chart]

theorem initDefaults_Repo (args : ReleaseType) (chart repo : String)
    (d : List (String × Value)) :
    (InitDefaults args chart repo d).RepositoryOpts.Repo =
      if args.RepositoryOpts.Repo = none then some repo
      else args.RepositoryOpts.Repo := by
  unfold InitDefaults
  rw [applyValues_RepositoryOpts, applyRepoDefault_Repo, applyChartDefault_RepositoryOpts]

theorem initDefaults_Values (args : ReleaseType) (chart repo : String)
    (d : List (String × Value)) :
    (InitDefaults args chart repo d).Values =
      some (eraseKey (mergeDecoded (args.Values.getD []) d) FieldHelmOptionsInput) := by
  unfold InitDefaults applyValues
  rw [applyRepoDefault_Values, applyChartDefault_Values]

/-- C1: for every configuration record and every decoded values payload
(including one that sets the reserved key itself), the reserved
chart-options key `helmOptions` is absent from the values map produced
by `InitDefaults`. -/
theorem initDefaults_reserved_key_absent (args : ReleaseType) (chart repo : String)
    (d : List (String × Value)) :
    lookupKV ((InitDefaults args chart repo d).Values.getD []) FieldHelmOptionsInput
      = none := by
  rw [initDefaults_Values, Option.getD_some]
  exact lookupKV_eraseKey_self _ _

/-- C2: `InitDefaults` sets the chart field to the supplied default
chart identifier exactly when the field is unset (the empty string), and
preserves it otherwise. -/
theorem initDefaults_chart_defaulting (args : ReleaseType) (chart repo : String)
    (d : List (String × Value)) :
    (args.Chart = "" → (InitDefaults args chart repo d).Chart = chart) ∧
    (args.Chart ≠ "" → (InitDefaults args chart repo d).Chart = args.Chart) := by
  rw [initDefaults_Chart]
  constructor
  · intro h
    rw [if_pos h]
  · intro h
    rw [if_neg h]

/-- Witness for C2 at concrete inputs: an unset chart receives the
default `"nginx"`, a chart already set to `"redis"` is preserved. -/
theorem initDefaults_chart_defaulting_w :
    (InitDefaults {} "nginx" "https://r" []).Chart = "nginx" ∧
    (InitDefaults { Chart := "redis" } "nginx" "https://r" []).Chart = "redis" :=
  ⟨(initDefaults_chart_defaulting {} "nginx" "https://r" []).1 rfl,
   (initDefaults_chart_defaulting { Chart := "redis" } "nginx" "https://r" []).2
     (by decide)⟩

/-- C3: `InitDefaults` sets the repository URL to the supplied default
exactly when the pointer is unset (nil), and preserves the original
pointer otherwise. -/
theorem initDefaults_repo_defaulting (args : ReleaseType) (chart repo : String)
    (d : List (String × Value)) :
    (args.RepositoryOpts.Repo = none →
      (InitDefaults args chart repo d).RepositoryOpts.Repo = some repo) ∧
    (∀ s, args.RepositoryOpts.Repo = some s →
      (InitDefaults args chart repo d).RepositoryOpts.Repo = some s) := by
  rw [initDefaults_Repo]
  constructor
  · intro h
    rw [if_pos h]
  · intro s h
    rw [h]
    simp

/-- Witness for C3 at concrete inputs: a nil repository URL receives the
default, a set one is preserved. -/
theorem initDefaults_repo_defaulting_w :
    (InitDefaults {} "c" "https://default" []).RepositoryOpts.Repo
      = some "https://default" ∧
    (InitDefaults { RepositoryOpts := { Repo := some "https://mine" } }
      "c" "https://default" []).RepositoryOpts.Repo = some "https://mine" :=
  ⟨(initDefaults_repo_defaulting {} "c" "https://default" []).1 rfl,
   (initDefaults_repo_defaulting { RepositoryOpts := { Repo := some "https://mine" } }
     "c" "https://default" []).2 "https://mine" rfl⟩

/-- Counterexample to C4 as stated: take a pre-existing values map that
binds the reserved key `helmOptions` and a decoded payload that also
binds it.  The key is present in both, yet the final map does not hold
the payload's value for it — the unconditional delete at src/base.go
line 204 removes it, so the lookup yields `none` rather than the
payload's `Value.str "new"`. -/
theorem initDefaults_values_override_cex :
    lookupKV ((InitDefaults
        { Values := some [(FieldHelmOptionsInput, Value.str "old")] }
        "c" "r" [(FieldHelmOptionsInput, Value.str "new")]).Values.getD [])
      FieldHelmOptionsInput = none := by
  rw [initDefaults_Values, Option.getD_some]
  exact lookupKV_eraseKey_self _ _

/-- C4 (amended): for every key OTHER THAN the reserved `helmOptions`
key, a key present in both the pre-existing values map and the decoded
payload ends up with the payload's value, and a key not introduced by
the payload keeps its pre-existing value. -/
theorem initDefaults_values_override (args : ReleaseType) (chart repo : String)
    (d : List (String × Value)) (k : String) (hk : k ≠ FieldHelmOptionsInput) :
    (∀ v, (d.map Prod.fst).Nodup → lookupKV d k = some v →
      lookupKV ((InitDefaults args chart repo d).Values.getD []) k = some v) ∧
    (k ∉ d.map Prod.fst →
      lookupKV ((InitDefaults args chart repo d).Values.getD []) k
        = lookupKV (args.Values.getD []) k) := by
  have hv : (InitDefaults args chart repo d).Values.getD []
      = eraseKey (mergeDecoded (args.Values.getD []) d) FieldHelmOptionsInput := by
    rw [initDefaults_Values, Option.getD_some]
  rw [hv]
  constructor
  · intro v hnd hl
    rw [lookupKV_eraseKey_ne _ _ _ hk]
    exact lookupKV_mergeDecoded_mem _ _ _ _ hnd hl
  · intro hmem
    rw [lookupKV_eraseKey_ne _ _ _ hk]
    exact lookupKV_mergeDecoded_not_mem _ _ _ hmem

/-- Witness for C4 (amended) at concrete inputs: key `"a"` is in both
the pre-existing map and the payload and ends with the payload's value;
key `"b"` is not in the payload and keeps its pre-existing value. -/
theorem initDefaults_values_override_w :
    lookupKV ((InitDefaults
        { Values := some [("a", Value.str "m"), ("b", Value.str "keep")] }
        "c" "r" [("a", Value.str "p")]).Values.getD []) "a" = some (Value.str "p") ∧
    lookupKV ((InitDefaults
        { Values := some [("a", Value.str "m"), ("b", Value.str "keep")] }
        "c" "r" [("a", Value.str "p")]).Values.getD []) "b" = some (Value.str "keep") :=
  ⟨(initDefaults_values_override
      { Values := some [("a", Value.str "m"), ("b", Value.str "keep")] }
      "c" "r" [("a", Value.str "p")] "a" (by decide)).1
      (Value.str "p") (by decide) (by decide),
   ((initDefaults_values_override
      { Values := some [("a", Value.str "m"), ("b", Value.str "keep")] }
      "c" "r" [("a", Value.str "p")] "b" (by decide)).2 (by decide)).trans
      (by decide)⟩

/-- Counterexample to C5 as stated: with an empty supplied default chart
identifier and an unset chart field, `InitDefaults` leaves the chart
field unset (the empty string), so the chart field is not always set. -/
theorem initDefaults_always_set_cex :
    (InitDefaults {} "" "https://r" []).Chart = "" := rfl

/-- C5 (amended): after `InitDefaults`, the repository URL pointer is
always set, and the chart field is set provided the supplied default
chart identifier is itself nonempty. -/
theorem initDefaults_always_set (args : ReleaseType) (chart repo : String)
    (d : List (String × Value)) :
    (chart ≠ "" → (InitDefaults args chart repo d).Chart ≠ "") ∧
    (InitDefaults args chart repo d).RepositoryOpts.Repo ≠ none := by
  constructor
  · intro hc
    rw [initDefaults_Chart]
    split
    · exact hc
    · assumption
  · rw [initDefaults_Repo]
    split
    · simp
    · assumption

/-- Witness for C5 (amended) at a concrete input. -/
theorem initDefaults_always_set_w :
    (InitDefaults {} "nginx" "https://r" []).Chart ≠ "" ∧
    (InitDefaults {} "nginx" "https://r" []).RepositoryOpts.Repo ≠ none :=
  ⟨(initDefaults_always_set {} "nginx" "https://r" []).1 (by decide),
   (initDefaults_always_set {} "nginx" "https://r" []).2⟩

/-- C6: shape conversion always produces the empty array for the
file-asset-list field `ValueYamlFiles`, whatever assets the input
carries (the conversion loop is commented out in the source). -/
theorem to_valueYamlFiles_empty (args : ReleaseType) :
    (To args).ValueYamlFiles = [] := rfl

theorem toBoolPtr_eq_spec (o : Option Bool) : toBoolPtr o = specScalarBool o := by
  cases o <;> rfl

theorem toIntPtr_eq_spec (o : Option Int) : toIntPtr o = specScalarInt o := by
  cases o <;> rfl

theorem toStringPtr_eq_spec (o : Option String) : toStringPtr o = specScalarString o := by
  cases o <;> rfl

/-- C7: every optional scalar field of the configuration — booleans,
integers, strings, including the six nested repository-options fields —
is converted by `To` independently of the others, exactly as the
spec-side converters `specScalarBool` / `specScalarInt` /
`specScalarString` describe: unset stays unset, a set value passes
through unchanged. -/
theorem to_scalar_fields (args : ReleaseType) :
    (To args).Atomic = specScalarBool args.Atomic ∧
    (To args).CleanupOnFail = specScalarBool args.CleanupOnFail ∧
    (To args).CreateNamespace = specScalarBool args.CreateNamespace ∧
    (To args).DependencyUpdate = specScalarBool args.DependencyUpdate ∧
    (To args).Description = specScalarString args.Description ∧
    (To args).Devel = specScalarBool args.Devel ∧
    (To args).DisableCRDHooks = specScalarBool args.DisableCRDHooks ∧
    (To args).DisableOpenapiValidation = specScalarBool args.DisableOpenapiValidation ∧
    (To args).DisableWebhooks = specScalarBool args.DisableWebhooks ∧
    (To args).ForceUpdate = specScalarBool args.ForceUpdate ∧
    (To args).Keyring = specScalarString args.Keyring ∧
    (To args).Lint = specScalarBool args.Lint ∧
    (To args).MaxHistory = specScalarInt args.MaxHistory ∧
    (To args).Name = specScalarString args.Name ∧
    (To args).Namespace = specScalarString args.Namespace ∧
    (To args).Postrender = specScalarString args.Postrender ∧
    (To args).RecreatePods = specScalarBool args.RecreatePods ∧
    (To args).RenderSubchartNotes = specScalarBool args.RenderSubchartNotes ∧
    (To args).Replace = specScalarBool args.Replace ∧
    (To args).RepositoryOpts.CaFile = specScalarString args.RepositoryOpts.CaFile ∧
    (To args).RepositoryOpts.CertFile = specScalarString args.RepositoryOpts.CertFile ∧
    (To args).RepositoryOpts.KeyFile = specScalarString args.RepositoryOpts.KeyFile ∧
    (To args).RepositoryOpts.Password = specScalarString args.RepositoryOpts.Password ∧
    (To args).RepositoryOpts.Repo = specScalarString args.RepositoryOpts.Repo ∧
    (To args).RepositoryOpts.Username = specScalarString args.RepositoryOpts.Username ∧
    (To args).ResetValues = specScalarBool args.ResetValues ∧
    (To args).ReuseValues = specScalarBool args.ReuseValues ∧
    (To args).SkipAwait = specScalarBool args.SkipAwait ∧
    (To args).SkipCrds = specScalarBool args.SkipCrds ∧
    (To args).Timeout = specScalarInt args.Timeout ∧
    (To args).Verify = specScalarBool args.Verify ∧
    (To args).Version = specScalarString args.Version ∧
    (To args).WaitForJobs = specScalarBool args.WaitForJobs :=
  ⟨toBoolPtr_eq_spec _, toBoolPtr_eq_spec _, toBoolPtr_eq_spec _, toBoolPtr_eq_spec _,
   toStringPtr_eq_spec _, toBoolPtr_eq_spec _, toBoolPtr_eq_spec _, toBoolPtr_eq_spec _,
   toBoolPtr_eq_spec _, toBoolPtr_eq_spec _, toStringPtr_eq_spec _, toBoolPtr_eq_spec _,
   toIntPtr_eq_spec _, toStringPtr_eq_spec _, toStringPtr_eq_spec _, toStringPtr_eq_spec _,
   toBoolPtr_eq_spec _, toBoolPtr_eq_spec _, toBoolPtr_eq_spec _, toStringPtr_eq_spec _,
   toStringPtr_eq_spec _, toStringPtr_eq_spec _, toStringPtr_eq_spec _, toStringPtr_eq_spec _,
   toStringPtr_eq_spec _, toBoolPtr_eq_spec _, toBoolPtr_eq_spec _, toBoolPtr_eq_spec _,
   toBoolPtr_eq_spec _, toIntPtr_eq_spec _, toBoolPtr_eq_spec _, toStringPtr_eq_spec _,
   toBoolPtr_eq_spec _⟩

/-- C8: when the requested type token differs from the component's
declared type, `Construct` returns the type-mismatch error and performs
no resource registration at all (the event trace is empty). -/
theorem construct_type_mismatch (c : ChartImpl) (typ name : String)
    (copyTo : Except String (Option ReleaseType × List (String × Value)))
    (registerComponent : Except String Unit)
    (newRelease : ReleaseArgs → Except String ReleaseStatus)
    (registerOutputs : Except String Unit)
    (h : typ ≠ c.typeToken) :
    Construct c typ name copyTo registerComponent newRelease registerOutputs =
      (Except.error ("unknown resource type " ++ typ ++ "; expected " ++ c.typeToken),
        []) := by
  unfold Construct
  rw [if_pos h]

/-- Witness for C8 at concrete inputs: requesting token
`"pkg:index:Other"` from a chart declared as `"pkg:index:Chart"` fails
with the mismatch error and registers nothing. -/
theorem construct_type_mismatch_w :
    Construct ⟨"pkg:index:Chart", "nginx", "https://charts.example.com"⟩
      "pkg:index:Other" "n" (Except.ok (none, [])) (Except.ok ())
      (fun _ => Except.ok {}) (Except.ok ()) =
      (Except.error ("unknown resource type " ++ "pkg:index:Other" ++ "; expected "
        ++ "pkg:index:Chart"), []) :=
  construct_type_mismatch ⟨"pkg:index:Chart", "nginx", "https://charts.example.com"⟩
    "pkg:index:Other" "n" (Except.ok (none, [])) (Except.ok ())
    (fun _ => Except.ok {}) (Except.ok ()) (by decide)

/-- C9: a failed decoding of the values payload makes `InitDefaults`
panic with the decode error; the Go function has no error result
(`GoOutcome` has no error-return constructor), so a decoding failure is
never reported as a returned error value. -/
theorem initDefaultsRun_decode_failure_panics (args : ReleaseType)
    (chart repo : String) (e : String) :
    InitDefaultsRun args chart repo (Except.error e) = GoOutcome.panicked e := rfl

/-- C10: `InitDefaults` modifies only the chart field, the repository
URL pointer and the values map; every other field of the configuration
record — including the other five repository-options fields — is
unchanged. -/
theorem initDefaults_frame (args : ReleaseType) (chart repo : String)
    (d : List (String × Value)) :
    (InitDefaults args chart repo d).Atomic = args.Atomic ∧
    (InitDefaults args chart repo d).CleanupOnFail = args.CleanupOnFail ∧
    (InitDefaults args chart repo d).CreateNamespace = args.CreateNamespace ∧
    (InitDefaults args chart repo d).DependencyUpdate = args.DependencyUpdate ∧
    (InitDefaults args chart repo d).Description = args.Description ∧
    (InitDefaults args chart repo d).Devel = args.Devel ∧
    (InitDefaults args chart repo d).DisableCRDHooks = args.DisableCRDHooks ∧
    (InitDefaults args chart repo d).DisableOpenapiValidation
      = args.DisableOpenapiValidation ∧
    (InitDefaults args chart repo d).DisableWebhooks = args.DisableWebhooks ∧
    (InitDefaults args chart repo d).ForceUpdate = args.ForceUpdate ∧
    (InitDefaults args chart repo d).Keyring = args.Keyring ∧
    (InitDefaults args chart repo d).Lint = args.Lint ∧
    (InitDefaults args chart repo d).Manifest = args.Manifest ∧
    (InitDefaults args chart repo d).MaxHistory = args.MaxHistory ∧
    (InitDefaults args chart repo d).Name = args.Name ∧
    (InitDefaults args chart repo d).Namespace = args.Namespace ∧
    (InitDefaults args chart repo d).Postrender = args.Postrender ∧
    (InitDefaults args chart repo d).RecreatePods = args.RecreatePods ∧
    (InitDefaults args chart repo d).RenderSubchartNotes = args.RenderSubchartNotes ∧
    (InitDefaults args chart repo d).Replace = args.Replace ∧
    (InitDefaults args chart repo d).RepositoryOpts.CaFile
      = args.RepositoryOpts.CaFile ∧
    (InitDefaults args chart repo d).RepositoryOpts.CertFile
      = args.RepositoryOpts.CertFile ∧
    (InitDefaults args chart repo d).RepositoryOpts.KeyFile
      = args.RepositoryOpts.KeyFile ∧
    (InitDefaults args chart repo d).RepositoryOpts.Password
      = args.RepositoryOpts.Password ∧
    (InitDefaults args chart repo d).RepositoryOpts.Username
      = args.RepositoryOpts.Username ∧
    (InitDefaults args chart repo d).ResetValues = args.ResetValues ∧
    (InitDefaults args chart repo d).ResourceNames = args.ResourceNames ∧
    (InitDefaults args chart repo d).ReuseValues = args.ReuseValues ∧
    (InitDefaults args chart repo d).SkipAwait = args.SkipAwait ∧
    (InitDefaults args chart repo d).SkipCrds = args.SkipCrds ∧
    (InitDefaults args chart repo d).Status = args.Status ∧
    (InitDefaults args chart repo d).Timeout = args.Timeout ∧
    (InitDefaults args chart repo d).ValueYamlFiles = args.ValueYamlFiles ∧
    (InitDefaults args chart repo d).Verify = args.Verify ∧
    (InitDefaults args chart repo d).Version = args.Version ∧
    (InitDefaults args chart repo d).WaitForJobs = args.WaitForJobs := by
  unfold InitDefaults applyValues applyRepoDefault applyChartDefault
  split <;> split <;> simp

end Helmbase
